import Mathlib

/-!
Shallow embedding of the core financial-analysis pipeline of
`src/src/financial_analysis/tools/custom_tool.py` (class
`FinancialAnalysisTool`), together with theorems settling the frozen
claims about it.

Modelling conventions:
* Python floats are modelled as `Rat` (the pipeline performs only exact
  arithmetic on the extracted figures, so rationals are faithful up to
  floating-point rounding, which no claim depends on).
* Python dict lookups over the fixed nine-key figure vocabulary and the
  fixed eight-key ratio vocabulary are modelled as structures of
  `Option Rat` fields: `none` means the key is absent from the dict.
* Python string operations (`in`, `lower`, `str` of a list) are modelled
  at the character-list level by executable functions below.
-/

/-- Python's `s.lower()` on the character list of a string. -/
def pyLower (s : String) : String := ⟨s.data.map Char.toLower⟩

/-- `listPre n h` is true when the character list `n` starts the list `h`. -/
def listPre : List Char → List Char → Bool
  | [], _ => true
  | _ :: _, [] => false
  | a :: as, b :: bs => a == b && listPre as bs

/-- `listSub n h` is true when `n` occurs as a contiguous run inside `h`. -/
def listSub (needle : List Char) : List Char → Bool
  | [] => needle.isEmpty
  | c :: rest => listPre needle (c :: rest) || listSub needle rest

/-- Python's `needle in hay` on strings: substring containment. -/
def pyIn (needle hay : String) : Bool := listSub needle.data hay.data

/-- Python's `repr` of a string that holds no quote, backslash or
non-printable character: the string between single quotes.  Every string
the pipeline renders this way is such a plain literal. -/
def pyQuote (s : String) : String := "'" ++ s ++ "'"

/-- The element part of Python's `str` of a list of plain strings:
elements quoted and joined by a comma and a blank. -/
def pyStrInner : List String → String
  | [] => ""
  | [s] => pyQuote s
  | s :: rest => pyQuote s ++ ", " ++ pyStrInner rest

/-- Python's `str(l)` for a list `l` of plain strings. -/
def pyStrList (l : List String) : String := "[" ++ pyStrInner l ++ "]"

/-- The `indian_multipliers` property: the scale-word dictionary in its
insertion order (Python 3 dicts iterate in insertion order). -/
def indian_multipliers : List (String × Rat) :=
  [("crore", 10000000), ("crores", 10000000),
   ("lakh", 100000), ("lakhs", 100000),
   ("thousand", 1000), ("thousands", 1000),
   ("million", 1000000), ("millions", 1000000),
   ("billion", 1000000000), ("billions", 1000000000)]

/-- The loop of `_find_multiplier`: the first dictionary entry whose name
occurs in the lowered text gives the multiplier; the fall-through default
is 1e5 (lakh). -/
def findMultiplierAux (text_lower : String) : List (String × Rat) → Rat
  | [] => 100000
  | (name, value) :: rest =>
      if pyIn name text_lower then value else findMultiplierAux text_lower rest

/-- `_find_multiplier(text, metric)`: lowers the text and scans the
multiplier dictionary in insertion order.  The `metric` argument is
accepted and ignored, as in the source. -/
def find_multiplier (text : String) (_metric : String) : Rat :=
  findMultiplierAux (pyLower text) indian_multipliers

/-- Modelled from the spec (refinement comparison only): the resolver the
claim describes, which returns the multiplier of the scale word whose
first occurrence comes earliest in the text, scanning positions left to
right, with default 1e5 when no scale word occurs. -/
def multiplierSpecScan : List Char → Rat
  | [] => 100000
  | c :: rest =>
      match indian_multipliers.find? (fun p => listPre p.1.data (c :: rest)) with
      | some p => p.2
      | none => multiplierSpecScan rest

/-- Modelled from the spec (refinement comparison only): earliest-in-text
multiplier resolution on the lowered text. -/
def findMultiplierSpec (text : String) : Rat :=
  multiplierSpecScan (pyLower text).data

/-- The nine-key figure dict produced by extraction: `none` models a key
absent from the Python dict. -/
structure FinancialFigures where
  revenue : Option Rat
  net_income : Option Rat
  ebitda : Option Rat
  total_assets : Option Rat
  total_liabilities : Option Rat
  equity : Option Rat
  debt : Option Rat
  cash : Option Rat
  working_capital : Option Rat
deriving DecidableEq

/-- The empty figure dict. -/
def FinancialFigures.empty : FinancialFigures :=
  ⟨none, none, none, none, none, none, none, none, none⟩

/-- The eight-key ratio dict of `_calculate_ratios`: `none` models a key
absent from the Python dict. -/
structure RatioSet where
  net_margin : Option Rat
  ebitda_margin : Option Rat
  cash_to_debt : Option Rat
  debt_to_equity : Option Rat
  debt_to_assets : Option Rat
  roe : Option Rat
  roa : Option Rat
  roce : Option Rat
deriving DecidableEq

/-- The empty ratio dict. -/
def RatioSet.empty : RatioSet := ⟨none, none, none, none, none, none, none, none⟩

/-- `_calculate_ratios`: each ratio is stored only when all its inputs are
present in the figure dict and its denominator is strictly positive. -/
def calculate_ratios (figures : FinancialFigures) : RatioSet where
  net_margin :=
    match figures.revenue, figures.net_income with
    | some r, some n => if r > 0 then some (n / r * 100) else none
    | _, _ => none
  ebitda_margin :=
    match figures.ebitda, figures.revenue with
    | some e, some r => if r > 0 then some (e / r * 100) else none
    | _, _ => none
  cash_to_debt :=
    match figures.cash, figures.debt with
    | some c, some d => if d > 0 then some (c / d) else none
    | _, _ => none
  debt_to_equity :=
    match figures.debt, figures.equity with
    | some d, some e => if e > 0 then some (d / e) else none
    | _, _ => none
  debt_to_assets :=
    match figures.total_assets, figures.debt with
    | some t, some d => if t > 0 then some (d / t) else none
    | _, _ => none
  roe :=
    match figures.net_income, figures.equity with
    | some n, some e => if e > 0 then some (n / e * 100) else none
    | _, _ => none
  roa :=
    match figures.net_income, figures.total_assets with
    | some n, some t => if t > 0 then some (n / t * 100) else none
    | _, _ => none
  roce :=
    match figures.ebitda, figures.total_assets with
    | some e, some t => if t > 0 then some (e / t * 100) else none
    | _, _ => none

/-- The profitability band of `_assess_performance` on `net_margin`. -/
def profScore (margin : Rat) : Rat :=
  if margin > 15 then 90 else if margin > 10 then 80 else if margin > 5 then 65 else 40

/-- The liquidity band of `_assess_performance` on `cash_to_debt`. -/
def liqScore (cash_ratio : Rat) : Rat :=
  if cash_ratio > 0.5 then 85 else if cash_ratio > 0.2 then 70 else 50

/-- The leverage band of `_assess_performance` on `debt_to_equity`. -/
def levScore (de_ratio : Rat) : Rat :=
  if de_ratio < 0.5 then 90 else if de_ratio < 1 then 75 else if de_ratio < 1.5 then 60 else 40

/-- The efficiency band of `_assess_performance` on `roe`. -/
def effScore (roe : Rat) : Rat :=
  if roe > 20 then 95 else if roe > 15 then 85 else if roe > 10 then 70 else 50

/-- The `scores` list `_assess_performance` accumulates: one band value per
ratio actually present, appended in source order (profitability,
liquidity, leverage, efficiency). -/
def computedScores (ratios : RatioSet) : List Rat :=
  [ratios.net_margin.map profScore,
   ratios.cash_to_debt.map liqScore,
   ratios.debt_to_equity.map levScore,
   ratios.roe.map effScore].filterMap id

/-- The grade ladder of `_assess_performance` on the computed overall
score. -/
def gradeOf (score : Rat) : String :=
  if score ≥ 85 then "A"
  else if score ≥ 75 then "B"
  else if score ≥ 60 then "C"
  else if score ≥ 50 then "D"
  else "F"

/-- The performance dict of `_assess_performance`: the Python dict always
carries all six keys, initialised to score 0 and grade "N/A". -/
structure Performance where
  overall_score : Rat
  profitability_score : Rat
  liquidity_score : Rat
  leverage_score : Rat
  efficiency_score : Rat
  grade : String
deriving DecidableEq

/-- `_assess_performance`: per-category band scores for the present
ratios, overall score and grade only when at least one band fired,
otherwise the initial 0 and "N/A" survive. -/
def assess_performance (ratios : RatioSet) : Performance :=
  let scores := computedScores ratios
  { overall_score := if scores.length = 0 then 0 else scores.sum / scores.length
    profitability_score := (ratios.net_margin.map profScore).getD 0
    liquidity_score := (ratios.cash_to_debt.map liqScore).getD 0
    leverage_score := (ratios.debt_to_equity.map levScore).getD 0
    efficiency_score := (ratios.roe.map effScore).getD 0
    grade := if scores.length = 0 then "N/A" else gradeOf (scores.sum / scores.length) }

/-- Two-decimal rendering of a rational, standing in for Python's
`"{:.2f}".format` (binary floating-point rounding artifacts are
abstracted away; no claim depends on the rendered digits). -/
def format2 (x : Rat) : String :=
  let n : Int := round (x * 100)
  let sign := if n < 0 then "-" else ""
  let m := n.natAbs
  let fr := m % 100
  sign ++ toString (m / 100) ++ "." ++ (if fr < 10 then "0" else "") ++ toString fr

/-- One-decimal rendering of a rational, standing in for Python's
`"{:.1f}".format`, with the same abstraction as `format2`. -/
def format1 (x : Rat) : String :=
  let n : Int := round (x * 10)
  let sign := if n < 0 then "-" else ""
  let m := n.natAbs
  sign ++ toString (m / 10) ++ "." ++ toString (m % 10)

/-- `_generate_insights`: one templated string per available signal, in
source order. -/
def generate_insights (figures : FinancialFigures) (ratios : RatioSet) : List String :=
  (match figures.revenue with
   | some rev => ["Revenue: ₹" ++ format2 (rev / 10000000) ++ " crores"]
   | none => []) ++
  (match ratios.net_margin with
   | some margin =>
       if margin > 15 then ["Strong profitability with " ++ format1 margin ++ "% net margin"]
       else if margin > 5 then ["Moderate profitability with " ++ format1 margin ++ "% net margin"]
       else ["Low profitability with " ++ format1 margin ++ "% net margin"]
   | none => []) ++
  (match ratios.debt_to_equity with
   | some de =>
       if de > 1.5 then ["High leverage with D/E ratio of " ++ format2 de]
       else if de > 0.5 then ["Moderate leverage with D/E ratio of " ++ format2 de]
       else ["Conservative leverage with D/E ratio of " ++ format2 de]
   | none => []) ++
  (match ratios.cash_to_debt with
   | some c =>
       if c > 0.5 then ["Strong liquidity position with cash-to-debt ratio of " ++ format2 c]
       else ["Tight liquidity with cash-to-debt ratio of " ++ format2 c]
   | none => []) ++
  (match ratios.roe with
   | some roe =>
       if roe > 20 then ["Excellent ROE of " ++ format1 roe ++ "%"]
       else if roe > 10 then ["Good ROE of " ++ format1 roe ++ "%"]
       else ["Below average ROE of " ++ format1 roe ++ "%"]
   | none => [])

/-- `_identify_risks`: independent conditions, each appending one fixed
flag string, in source order. -/
def identify_risks (figures : FinancialFigures) (ratios : RatioSet) : List String :=
  (match ratios.cash_to_debt with
   | some c => if c < 0.2 then ["HIGH LIQUIDITY RISK: Low cash relative to debt obligations"] else []
   | none => []) ++
  (match ratios.debt_to_equity with
   | some de => if de > 1.5 then ["HIGH LEVERAGE RISK: Excessive debt relative to equity"] else []
   | none => []) ++
  (match ratios.net_margin with
   | some m => if m < 3 then ["PROFITABILITY RISK: Very low profit margins"] else []
   | none => []) ++
  (match ratios.roe with
   | some r => if r < 8 then ["EFFICIENCY RISK: Low return on equity"] else []
   | none => []) ++
  (match ratios.roa with
   | some r => if r < 5 then ["ASSET UTILIZATION RISK: Poor asset productivity"] else []
   | none => []) ++
  (match figures.working_capital with
   | some w => if w < 0 then ["WORKING CAPITAL RISK: Negative working capital"] else []
   | none => [])

/-- The recommendation list `_generate_recommendations` accumulates
before the default check: rules in source order over the performance
dict, the ratios, Python's `str` of the risk list, and the document
type. -/
def recommendation_rules (performance : Performance) (ratios : RatioSet)
    (risks : List String) (document_type : String) : List String :=
    (if performance.overall_score < 60 then
      ["PRIORITY: Comprehensive financial restructuring required"] else []) ++
    (if performance.profitability_score < 70 then
      ["Focus on cost optimization and revenue enhancement strategies"] else []) ++
    (if performance.liquidity_score < 70 then
      ["Improve cash flow management and reduce short-term debt"] else []) ++
    (match ratios.debt_to_equity with
     | some de => if de > 1 then
        ["Consider debt reduction or equity infusion to improve leverage"] else []
     | none => []) ++
    (if performance.efficiency_score < 70 then
      ["Enhance operational efficiency and asset utilization"] else []) ++
    (if pyIn "HIGH LIQUIDITY RISK" (pyStrList risks) then
      ["URGENT: Arrange additional credit facilities or sell non-core assets"] else []) ++
    (if pyIn "HIGH LEVERAGE RISK" (pyStrList risks) then
      ["URGENT: Implement debt restructuring plan"] else []) ++
    (if document_type == "quarterly_results" then
      ["Monitor quarterly trends and seasonal variations"] else [])

/-- `_generate_recommendations`: the accumulated rule list, or the single
default recommendation when no rule fired. -/
def generate_recommendations (performance : Performance) (ratios : RatioSet)
    (risks : List String) (document_type : String) : List String :=
  let recs := recommendation_rules performance ratios risks document_type
  if recs = [] then ["Maintain current performance and explore growth opportunities"] else recs

/-- Pairwise `a ≤ b` over a list: pandas `is_monotonic_increasing`. -/
def nondecr : List Rat → Bool
  | a :: b :: rest => decide (a ≤ b) && nondecr (b :: rest)
  | _ => true

/-- Pairwise `a ≥ b` over a list: pandas `is_monotonic_decreasing`. -/
def nonincr : List Rat → Bool
  | a :: b :: rest => decide (b ≤ a) && nonincr (b :: rest)
  | _ => true

/-- `_identify_trend`: fewer than three values is insufficient data;
otherwise the last three values are classified, non-decreasing tested
before non-increasing. -/
def identify_trend (series : List Rat) : String :=
  if series.length < 3 then "insufficient_data"
  else
    let recent := series.drop (series.length - 3)
    if nondecr recent then "increasing"
    else if nonincr recent then "decreasing"
    else "volatile"

/-- `_calculate_growth_rate`: percent change of the last value over the
previous one, 0 for short series or a zero previous value. -/
def calculate_growth_rate (series : List Rat) : Rat :=
  match series.reverse with
  | latest :: previous :: _ => if previous ≠ 0 then (latest - previous) / previous * 100 else 0
  | _ => 0

/-- The extraction record the analysis step consumes: document type,
optional entities, and the figure dict.  The raw text, tables and the
CSV per-column statistics are carried by the extractors but never read by
`_analyze_financial_data` beyond these fields, so they are elided. -/
structure ExtractedData where
  document_type : String
  time_period : Option String
  company_name : Option String
  financial_figures : FinancialFigures
deriving DecidableEq

/-- The analysis dict `_analyze_financial_data` assembles. -/
structure Analysis where
  document_type : String
  time_period : Option String
  company_name : Option String
  key_insights : List String
  financial_ratios : RatioSet
  performance_summary : Performance
  risk_indicators : List String
  recommendations : List String
deriving DecidableEq

/-- `_analyze_financial_data`: ratios, insights, performance, risks and
recommendations computed in source order from the extracted figures. -/
def analyze_financial_data (data : ExtractedData) : Analysis :=
  let ratios := calculate_ratios data.financial_figures
  let performance := assess_performance ratios
  let risks := identify_risks data.financial_figures ratios
  { document_type := data.document_type
    time_period := data.time_period
    company_name := data.company_name
    key_insights := generate_insights data.financial_figures ratios
    financial_ratios := ratios
    performance_summary := performance
    risk_indicators := risks
    recommendations := generate_recommendations performance ratios risks data.document_type }

/-- Python's `s.split(sep)` accumulator on character lists. -/
def pySplitAux (sep : Char) : List Char → List Char → List (List Char)
  | [], acc => [acc.reverse]
  | x :: xs, acc =>
      if x == sep then acc.reverse :: pySplitAux sep xs []
      else pySplitAux sep xs (x :: acc)

/-- Python's `s.split(sep)` for a one-character separator. -/
def pySplit (sep : Char) (s : String) : List String :=
  (pySplitAux sep s.data []).map (fun l => (⟨l⟩ : String))

/-- `_detect_file_type`: the lowered extension after the last dot. -/
def detect_file_type (file_path : String) : String :=
  let ext := (pySplit '.' (pyLower file_path)).getLastD ""
  if ext = "pdf" then "pdf"
  else if ext = "csv" ∨ ext = "xlsx" ∨ ext = "xls" then "csv"
  else "unknown"

/-- The dict `_run` returns: the success dict carries the keys `status`,
`file_type`, `analysis`, `raw_data`; the error dict carries the keys
`status`, `error_message`, `file_type`. -/
inductive RunResult where
  | success (file_type : String) (analysis : Analysis) (raw_data : ExtractedData)
  | error (error_message : String) (file_type : String)
deriving DecidableEq

/-- The value of the `status` key of the returned dict. -/
def RunResult.status : RunResult → String
  | .success _ _ _ => "success"
  | .error _ _ => "error"

/-- Whether the returned dict carries a given key, read off the two dict
literals of `_run`. -/
def RunResult.hasKey : RunResult → String → Bool
  | .success _ _ _, k => k = "status" ∨ k = "file_type" ∨ k = "analysis" ∨ k = "raw_data"
  | .error _ _, k => k = "status" ∨ k = "error_message" ∨ k = "file_type"

/-- `_run`: the extractors perform file I/O, so each is passed in as its
outcome — `Except.error msg` models the extractor raising an exception
whose rendered message is `msg`.  The `try` block catches any exception
and returns the error dict; an unsupported file type raises `ValueError`
with the message built in the source. -/
def run (file_path : String) (file_type_arg : String)
    (pdf_extract csv_extract : Except String ExtractedData) : RunResult :=
  let ft := if file_type_arg = "auto" then detect_file_type file_path else file_type_arg
  if ft = "pdf" then
    match pdf_extract with
    | .ok d => .success ft (analyze_financial_data d) d
    | .error e => .error e ft
  else if ft = "csv" then
    match csv_extract with
    | .ok d => .success ft (analyze_financial_data d) d
    | .error e => .error e ft
  else .error ("Unsupported file type: " ++ ft) ft

/-! ## Lemmas -/

/-- `nondecr` agrees with pairwise `≤` chains. -/
theorem nondecr_iff_chain (l : List Rat) : nondecr l = true ↔ l.Chain' (· ≤ ·) := by
  induction l with
  | nil => simp [nondecr]
  | cons a t ih =>
    cases t with
    | nil => simp [nondecr]
    | cons b r => simp [nondecr, List.chain'_cons, ih]

/-- `nonincr` agrees with pairwise `≥` chains. -/
theorem nonincr_iff_chain (l : List Rat) : nonincr l = true ↔ l.Chain' (fun a b => b ≤ a) := by
  induction l with
  | nil => simp [nonincr]
  | cons a t ih =>
    cases t with
    | nil => simp [nonincr]
    | cons b r => simp [nonincr, List.chain'_cons, ih]

/-! ## Claims -/

/-- C6: the trend classifier returns "insufficient_data" on series of
fewer than 3 values; otherwise it classifies the last three values,
returning "increasing" when they are non-decreasing, "decreasing" when
they are non-increasing (and not non-decreasing), and "volatile"
otherwise; in particular `[1,2,3]` is increasing, `[3,2,1]` decreasing,
`[1,3,2]` volatile, and any length-2 series insufficient data. -/
theorem identify_trend_spec (s : List Rat) :
    (s.length < 3 → identify_trend s = "insufficient_data") ∧
    (3 ≤ s.length →
      ((s.drop (s.length - 3)).Chain' (· ≤ ·) → identify_trend s = "increasing") ∧
      (¬ (s.drop (s.length - 3)).Chain' (· ≤ ·) →
        (s.drop (s.length - 3)).Chain' (fun a b => b ≤ a) → identify_trend s = "decreasing") ∧
      (¬ (s.drop (s.length - 3)).Chain' (· ≤ ·) →
        ¬ (s.drop (s.length - 3)).Chain' (fun a b => b ≤ a) → identify_trend s = "volatile")) ∧
    identify_trend [1, 2, 3] = "increasing" ∧
    identify_trend [3, 2, 1] = "decreasing" ∧
    identify_trend [1, 3, 2] = "volatile" ∧
    (∀ a b : Rat, identify_trend [a, b] = "insufficient_data") := by
  refine ⟨fun h => ?_, fun h => ⟨fun h1 => ?_, fun h1 h2 => ?_, fun h1 h2 => ?_⟩, ?_, ?_, ?_, fun a b => ?_⟩
  · simp [identify_trend, h]
  · rw [identify_trend, if_neg (by omega), if_pos ((nondecr_iff_chain _).mpr h1)]
  · rw [identify_trend, if_neg (by omega),
      if_neg (by simp [nondecr_iff_chain]; exact h1),
      if_pos ((nonincr_iff_chain _).mpr h2)]
  · rw [identify_trend, if_neg (by omega),
      if_neg (by simp [nondecr_iff_chain]; exact h1),
      if_neg (by simp [nonincr_iff_chain]; exact h2)]
  · norm_num [identify_trend, nondecr]
  · norm_num [identify_trend, nondecr, nonincr]
  · norm_num [identify_trend, nondecr, nonincr]
  · simp [identify_trend]

/-- C10: a retained series of length at least 3 whose last three values
are all equal is classified "increasing" (the non-decreasing test is made
first and a constant run passes it), never "decreasing" or "volatile". -/
theorem identify_trend_constant (s : List Rat) (a : Rat) (hlen : 3 ≤ s.length)
    (hdrop : s.drop (s.length - 3) = [a, a, a]) :
    identify_trend s = "increasing" ∧
    identify_trend s ≠ "decreasing" ∧ identify_trend s ≠ "volatile" := by
  have h : identify_trend s = "increasing" := by
    rw [identify_trend, if_neg (by omega), hdrop]
    simp [nondecr]
  exact ⟨h, by rw [h]; decide, by rw [h]; decide⟩

/-- Witness for C10 at the concrete constant series `[5,5,5]`. -/
theorem identify_trend_constant_witness :
    identify_trend [5, 5, 5] = "increasing" ∧
    identify_trend [5, 5, 5] ≠ "decreasing" ∧ identify_trend [5, 5, 5] ≠ "volatile" :=
  identify_trend_constant [5, 5, 5] 5 (by norm_num) rfl

/-- Unfolding lemma for the `net_margin` field of `_calculate_ratios`. -/
theorem ratios_net_margin (f : FinancialFigures) : (calculate_ratios f).net_margin =
    match f.revenue, f.net_income with
    | some r, some n => if r > 0 then some (n / r * 100) else none
    | _, _ => none := rfl

/-- Unfolding lemma for the `ebitda_margin` field of `_calculate_ratios`. -/
theorem ratios_ebitda_margin (f : FinancialFigures) : (calculate_ratios f).ebitda_margin =
    match f.ebitda, f.revenue with
    | some e, some r => if r > 0 then some (e / r * 100) else none
    | _, _ => none := rfl

/-- Unfolding lemma for the `cash_to_debt` field of `_calculate_ratios`. -/
theorem ratios_cash_to_debt (f : FinancialFigures) : (calculate_ratios f).cash_to_debt =
    match f.cash, f.debt with
    | some c, some d => if d > 0 then some (c / d) else none
    | _, _ => none := rfl

/-- Unfolding lemma for the `debt_to_equity` field of `_calculate_ratios`. -/
theorem ratios_debt_to_equity (f : FinancialFigures) : (calculate_ratios f).debt_to_equity =
    match f.debt, f.equity with
    | some d, some e => if e > 0 then some (d / e) else none
    | _, _ => none := rfl

/-- Unfolding lemma for the `debt_to_assets` field of `_calculate_ratios`. -/
theorem ratios_debt_to_assets (f : FinancialFigures) : (calculate_ratios f).debt_to_assets =
    match f.total_assets, f.debt with
    | some t, some d => if t > 0 then some (d / t) else none
    | _, _ => none := rfl

/-- Unfolding lemma for the `roe` field of `_calculate_ratios`. -/
theorem ratios_roe (f : FinancialFigures) : (calculate_ratios f).roe =
    match f.net_income, f.equity with
    | some n, some e => if e > 0 then some (n / e * 100) else none
    | _, _ => none := rfl

/-- Unfolding lemma for the `roa` field of `_calculate_ratios`. -/
theorem ratios_roa (f : FinancialFigures) : (calculate_ratios f).roa =
    match f.net_income, f.total_assets with
    | some n, some t => if t > 0 then some (n / t * 100) else none
    | _, _ => none := rfl

/-- Unfolding lemma for the `roce` field of `_calculate_ratios`. -/
theorem ratios_roce (f : FinancialFigures) : (calculate_ratios f).roce =
    match f.ebitda, f.total_assets with
    | some e, some t => if t > 0 then some (e / t * 100) else none
    | _, _ => none := rfl

/-- C1: for every figure dict, each ratio key is present in the computed
ratio dict if and only if every figure it depends on is present and its
denominator is strictly positive, and then its value is the fixed
formula; in particular revenue 100 with net income 10 gives net margin
10.0, and revenue 0 with net income 10 leaves net margin absent. -/
theorem calculate_ratios_presence (f : FinancialFigures) :
    (∀ v, (calculate_ratios f).net_margin = some v ↔
      ∃ r n, f.revenue = some r ∧ f.net_income = some n ∧ 0 < r ∧ v = n / r * 100) ∧
    (∀ v, (calculate_ratios f).ebitda_margin = some v ↔
      ∃ e r, f.ebitda = some e ∧ f.revenue = some r ∧ 0 < r ∧ v = e / r * 100) ∧
    (∀ v, (calculate_ratios f).cash_to_debt = some v ↔
      ∃ c d, f.cash = some c ∧ f.debt = some d ∧ 0 < d ∧ v = c / d) ∧
    (∀ v, (calculate_ratios f).debt_to_equity = some v ↔
      ∃ d e, f.debt = some d ∧ f.equity = some e ∧ 0 < e ∧ v = d / e) ∧
    (∀ v, (calculate_ratios f).debt_to_assets = some v ↔
      ∃ d t, f.debt = some d ∧ f.total_assets = some t ∧ 0 < t ∧ v = d / t) ∧
    (∀ v, (calculate_ratios f).roe = some v ↔
      ∃ n e, f.net_income = some n ∧ f.equity = some e ∧ 0 < e ∧ v = n / e * 100) ∧
    (∀ v, (calculate_ratios f).roa = some v ↔
      ∃ n t, f.net_income = some n ∧ f.total_assets = some t ∧ 0 < t ∧ v = n / t * 100) ∧
    (∀ v, (calculate_ratios f).roce = some v ↔
      ∃ e t, f.ebitda = some e ∧ f.total_assets = some t ∧ 0 < t ∧ v = e / t * 100) ∧
    (calculate_ratios ⟨some 100, some 10, none, none, none, none, none, none, none⟩).net_margin
      = some 10 ∧
    (calculate_ratios ⟨some 0, some 10, none, none, none, none, none, none, none⟩).net_margin
      = none := by
  refine ⟨fun v => ?_, fun v => ?_, fun v => ?_, fun v => ?_, fun v => ?_, fun v => ?_,
    fun v => ?_, fun v => ?_, by rw [ratios_net_margin]; norm_num,
    by rw [ratios_net_margin]; norm_num⟩
  · rw [ratios_net_margin]
    rcases hr : f.revenue with _ | r <;> rcases hn : f.net_income with _ | n <;>
      simp [hr, hn] <;> exact fun _ => eq_comm
  · rw [ratios_ebitda_margin]
    rcases he : f.ebitda with _ | e <;> rcases hr : f.revenue with _ | r <;>
      simp [he, hr] <;> exact fun _ => eq_comm
  · rw [ratios_cash_to_debt]
    rcases hc : f.cash with _ | c <;> rcases hd : f.debt with _ | d <;>
      simp [hc, hd] <;> exact fun _ => eq_comm
  · rw [ratios_debt_to_equity]
    rcases hd : f.debt with _ | d <;> rcases he : f.equity with _ | e <;>
      simp [hd, he] <;> exact fun _ => eq_comm
  · rw [ratios_debt_to_assets]
    rcases ht : f.total_assets with _ | t <;> rcases hd : f.debt with _ | d <;>
      simp [ht, hd] <;> exact fun _ => eq_comm
  · rw [ratios_roe]
    rcases hn : f.net_income with _ | n <;> rcases he : f.equity with _ | e <;>
      simp [hn, he] <;> exact fun _ => eq_comm
  · rw [ratios_roa]
    rcases hn : f.net_income with _ | n <;> rcases ht : f.total_assets with _ | t <;>
      simp [hn, ht] <;> exact fun _ => eq_comm
  · rw [ratios_roce]
    rcases he : f.ebitda with _ | e <;> rcases ht : f.total_assets with _ | t <;>
      simp [he, ht] <;> exact fun _ => eq_comm

/-- Unfolding lemma for `overall_score` of `_assess_performance`. -/
theorem assess_overall (r : RatioSet) : (assess_performance r).overall_score =
    if (computedScores r).length = 0 then 0
    else (computedScores r).sum / (computedScores r).length := rfl

/-- Unfolding lemma for `grade` of `_assess_performance`. -/
theorem assess_grade (r : RatioSet) : (assess_performance r).grade =
    if (computedScores r).length = 0 then "N/A"
    else gradeOf ((computedScores r).sum / (computedScores r).length) := rfl

/-- Unfolding lemma for `profitability_score` of `_assess_performance`. -/
theorem assess_prof (r : RatioSet) : (assess_performance r).profitability_score =
    (r.net_margin.map profScore).getD 0 := rfl

/-- Unfolding lemma for `liquidity_score` of `_assess_performance`. -/
theorem assess_liq (r : RatioSet) : (assess_performance r).liquidity_score =
    (r.cash_to_debt.map liqScore).getD 0 := rfl

/-- Unfolding lemma for `leverage_score` of `_assess_performance`. -/
theorem assess_lev (r : RatioSet) : (assess_performance r).leverage_score =
    (r.debt_to_equity.map levScore).getD 0 := rfl

/-- Unfolding lemma for `efficiency_score` of `_assess_performance`. -/
theorem assess_eff (r : RatioSet) : (assess_performance r).efficiency_score =
    (r.roe.map effScore).getD 0 := rfl

/-- C3: whenever at least one category score is computed, the overall
score is the arithmetic mean of exactly the computed category scores and
the grade follows the closed-lower-bound breakpoints 85/75/60/50; a lone
liquidity score of exactly 85 grades "A", and a lone profitability score
of 90 gives overall score 90 and grade "A". -/
theorem assess_performance_mean_grade (r : RatioSet) :
    (computedScores r ≠ [] →
      (assess_performance r).overall_score
        = (computedScores r).sum / (computedScores r).length ∧
      (assess_performance r).grade =
        (if (assess_performance r).overall_score ≥ 85 then "A"
         else if (assess_performance r).overall_score ≥ 75 then "B"
         else if (assess_performance r).overall_score ≥ 60 then "C"
         else if (assess_performance r).overall_score ≥ 50 then "D"
         else "F")) ∧
    (assess_performance ⟨some 20, none, none, none, none, none, none, none⟩).overall_score
      = 90 ∧
    (assess_performance ⟨some 20, none, none, none, none, none, none, none⟩).grade = "A" ∧
    (assess_performance ⟨none, none, some 1, none, none, none, none, none⟩).overall_score
      = 85 ∧
    (assess_performance ⟨none, none, some 1, none, none, none, none, none⟩).grade = "A" := by
  refine ⟨fun h => ?_, ?_, ?_, ?_, ?_⟩
  · have hlen : (computedScores r).length ≠ 0 := by
      simpa [List.length_eq_zero] using h
    constructor
    · rw [assess_overall, if_neg hlen]
    · rw [assess_grade, if_neg hlen, assess_overall, if_neg hlen, gradeOf]
  · rw [assess_overall]; norm_num [computedScores, profScore, List.filterMap_cons]
  · rw [assess_grade]; norm_num [computedScores, profScore, gradeOf, List.filterMap_cons]
  · rw [assess_overall]; norm_num [computedScores, liqScore, List.filterMap_cons]
  · rw [assess_grade]; norm_num [computedScores, liqScore, gradeOf, List.filterMap_cons]

/-- C4 counterexample: on the empty ratio dict every category score is
still a set key of the performance dict holding 0 — the summary scores an
absent category as 0 rather than leaving it unset — and `overall_score`
is likewise the set value 0 (the grade alone falls back to "N/A"). -/
theorem assess_performance_empty_zero :
    (assess_performance RatioSet.empty).profitability_score = 0 ∧
    (assess_performance RatioSet.empty).liquidity_score = 0 ∧
    (assess_performance RatioSet.empty).leverage_score = 0 ∧
    (assess_performance RatioSet.empty).efficiency_score = 0 ∧
    (assess_performance RatioSet.empty).overall_score = 0 ∧
    (assess_performance RatioSet.empty).grade = "N/A" :=
  ⟨rfl, rfl, rfl, rfl, rfl, rfl⟩

/-- C4 amended: a category whose contributing ratio is absent keeps the
initialised score 0 in the performance dict and contributes nothing to
the computed-score list; when no category score is computable the
initialised `overall_score` 0 survives and the grade is "N/A". -/
theorem assess_performance_absent_zero (r : RatioSet) :
    (r.net_margin = none → (assess_performance r).profitability_score = 0) ∧
    (r.cash_to_debt = none → (assess_performance r).liquidity_score = 0) ∧
    (r.debt_to_equity = none → (assess_performance r).leverage_score = 0) ∧
    (r.roe = none → (assess_performance r).efficiency_score = 0) ∧
    (computedScores r = [] →
      (assess_performance r).overall_score = 0 ∧ (assess_performance r).grade = "N/A") := by
  refine ⟨fun h => ?_, fun h => ?_, fun h => ?_, fun h => ?_, fun h => ?_⟩
  · rw [assess_prof, h]; rfl
  · rw [assess_liq, h]; rfl
  · rw [assess_lev, h]; rfl
  · rw [assess_eff, h]; rfl
  · rw [assess_overall, assess_grade, h]; simp

/-- Witness for C4's amended theorem at the empty ratio dict. -/
theorem assess_performance_absent_zero_witness :
    (assess_performance RatioSet.empty).profitability_score = 0 ∧
    (assess_performance RatioSet.empty).overall_score = 0 ∧
    (assess_performance RatioSet.empty).grade = "N/A" := by
  have h := assess_performance_absent_zero RatioSet.empty
  exact ⟨h.1 rfl, (h.2.2.2.2 rfl).1, (h.2.2.2.2 rfl).2⟩

/-- C8: the analysis pipeline is deterministic — two runs of `_run` on
the same file contents (modelled by the same extraction outcomes) and the
same file-type argument produce equal results; no computed field depends
on randomness or time. -/
theorem run_deterministic (file_path file_type : String)
    (pdf_extract csv_extract : Except String ExtractedData) (r₁ r₂ : RunResult)
    (h₁ : run file_path file_type pdf_extract csv_extract = r₁)
    (h₂ : run file_path file_type pdf_extract csv_extract = r₂) : r₁ = r₂ :=
  h₁ ▸ h₂ ▸ rfl

/-- Witness for C8: two runs on a concrete PDF input coincide. -/
theorem run_deterministic_witness :
    run "report.pdf" "auto" (.ok ⟨"financial_document", none, none, FinancialFigures.empty⟩)
        (.error "no csv")
      = run "report.pdf" "auto"
          (.ok ⟨"financial_document", none, none, FinancialFigures.empty⟩) (.error "no csv") :=
  run_deterministic "report.pdf" "auto"
    (.ok ⟨"financial_document", none, none, FinancialFigures.empty⟩) (.error "no csv")
    _ _ rfl rfl

/-- C5 counterexample: when PDF extraction raises, `_run` returns the
error dict `{status, error_message, file_type}` — it carries no
`error_type` key, so the claim that every structured error result carries
an `error_type` field fails at this input. -/
theorem run_error_no_error_type :
    run "report.pdf" "auto" (.error "PDF extraction error: bad file") (.error "x")
      = .error "PDF extraction error: bad file" "pdf" ∧
    RunResult.hasKey
      (run "report.pdf" "auto" (.error "PDF extraction error: bad file") (.error "x"))
      "error_type" = false ∧
    RunResult.hasKey
      (run "report.pdf" "auto" (.error "PDF extraction error: bad file") (.error "x"))
      "error_message" = true := by
  refine ⟨by decide, by decide, by decide⟩

/-- C5 amended: any exception in a pipeline stage is caught, never
propagated: `_run` always returns a result tagged by a `status` field of
"success" or "error", and the error result carries the keys `status`,
`error_message` and `file_type` — but no `error_type` key; in particular
a raising PDF extraction under an explicit "pdf" file type yields exactly
the error dict with the exception message. -/
theorem run_error_structure (file_path file_type msg ft2 : String)
    (pdf_extract csv_extract : Except String ExtractedData) :
    ((run file_path file_type pdf_extract csv_extract).status = "success" ∨
      (run file_path file_type pdf_extract csv_extract).status = "error") ∧
    (run file_path file_type pdf_extract csv_extract = .error msg ft2 →
      RunResult.hasKey (run file_path file_type pdf_extract csv_extract) "status" = true ∧
      RunResult.hasKey (run file_path file_type pdf_extract csv_extract) "error_message" = true ∧
      RunResult.hasKey (run file_path file_type pdf_extract csv_extract) "file_type" = true ∧
      RunResult.hasKey (run file_path file_type pdf_extract csv_extract) "error_type" = false) ∧
    (file_type = "pdf" → pdf_extract = .error msg →
      run file_path file_type pdf_extract csv_extract = .error msg "pdf") := by
  refine ⟨?_, fun h => ?_, fun h1 h2 => ?_⟩
  · rcases run file_path file_type pdf_extract csv_extract with ⟨ft, a, d⟩ | ⟨m, ft⟩ <;>
      simp [RunResult.status]
  · rw [h]; refine ⟨?_, ?_, ?_, ?_⟩ <;> simp [RunResult.hasKey]
  · subst h1; subst h2; simp [run]

/-- The multiplier loop resolves to the first dictionary entry, in
insertion order, whose name occurs in the text. -/
theorem findMultiplierAux_eq_find (t : String) (l : List (String × Rat)) :
    findMultiplierAux t l = ((l.find? fun p => pyIn p.1 t).map Prod.snd).getD 100000 := by
  induction l with
  | nil => rfl
  | cons p rest ih =>
    by_cases h : pyIn p.1 t <;> simp [findMultiplierAux, List.find?_cons, h, ih]

/-- C2 counterexample: in the text "5 thousand and 2 crore" the scale
word whose first occurrence comes earliest is "thousand" (multiplier
1e3), but `_find_multiplier` checks the dictionary in insertion order and
returns 1e7 for "crore"; the code's result differs from the
earliest-occurrence resolver the claim describes. -/
theorem find_multiplier_not_earliest :
    find_multiplier "5 thousand and 2 crore" "revenue" = 10000000 ∧
    findMultiplierSpec "5 thousand and 2 crore" = 1000 ∧
    find_multiplier "5 thousand and 2 crore" "revenue"
      ≠ findMultiplierSpec "5 thousand and 2 crore" := by
  refine ⟨by decide, by decide, by decide⟩

/-- C2 amended: `_find_multiplier` returns the multiplier of the first
scale word in the fixed dictionary insertion order (crore, crores, lakh,
lakhs, thousand, thousands, million, millions, billion, billions) that
occurs anywhere in the lowercased text, and the default 1e5 when no
recognized scale word occurs; in particular any text containing "crore"
resolves to 1e7. -/
theorem find_multiplier_dict_order (text metric : String) :
    find_multiplier text metric =
      ((indian_multipliers.find? fun p => pyIn p.1 (pyLower text)).map Prod.snd).getD 100000 ∧
    ((∀ p ∈ indian_multipliers, pyIn p.1 (pyLower text) = false) →
      find_multiplier text metric = 100000) ∧
    (pyIn "crore" (pyLower text) = true → find_multiplier text metric = 10000000) := by
  refine ⟨findMultiplierAux_eq_find _ _, fun h => ?_, fun h => ?_⟩
  · rw [find_multiplier, findMultiplierAux_eq_find,
      List.find?_eq_none.mpr (fun p hp => by simp [h p hp])]
    rfl
  · rw [find_multiplier, findMultiplierAux_eq_find]
    simp [indian_multipliers, List.find?_cons, h]

/-- A run that starts a list still starts it after appending on the right. -/
theorem listPre_append (n l y : List Char) (h : listPre n l = true) :
    listPre n (l ++ y) = true := by
  induction n generalizing l with
  | nil => simp [listPre]
  | cons a as ih =>
    cases l with
    | nil => simp [listPre] at h
    | cons b bs =>
      simp [listPre] at h ⊢
      exact ⟨h.1, ih bs h.2⟩

/-- The empty run occurs in every list. -/
theorem listSub_nil (l : List Char) : listSub [] l = true := by
  cases l <;> simp [listSub, listPre]

/-- A run occurring in a list still occurs after appending on the right. -/
theorem listSub_append_right (n h y : List Char) (hs : listSub n h = true) :
    listSub n (h ++ y) = true := by
  induction h with
  | nil =>
    simp [listSub, List.isEmpty_iff] at hs
    subst hs
    exact listSub_nil y
  | cons c rest ih =>
    simp only [listSub, Bool.or_eq_true] at hs
    rcases hs with h1 | h2
    · simp only [List.cons_append, listSub, Bool.or_eq_true]
      exact Or.inl (listPre_append n (c :: rest) y h1)
    · simp only [List.cons_append, listSub, Bool.or_eq_true]
      exact Or.inr (ih h2)

/-- A run occurring in a list still occurs after appending on the left. -/
theorem listSub_append_left (n x h : List Char) (hs : listSub n h = true) :
    listSub n (x ++ h) = true := by
  induction x with
  | nil => simpa using hs
  | cons c rest ih =>
    simp only [List.cons_append, listSub, Bool.or_eq_true]
    exact Or.inr ih

/-- A substring of a member of a list of plain strings is a substring of
Python's `str` of that list. -/
theorem pyIn_pyStrList_of_mem (needle s : String) (l : List String)
    (hmem : s ∈ l) (hsub : pyIn needle s = true) :
    pyIn needle (pyStrList l) = true := by
  have key : listSub needle.data (pyStrInner l).data = true := by
    induction l with
    | nil => simp at hmem
    | cons s₀ rest ih =>
      rcases List.mem_cons.mp hmem with h | h
      · subst h
        cases rest with
        | nil =>
          show listSub needle.data (pyQuote s).data = true
          rw [pyQuote, String.data_append, String.data_append]
          exact listSub_append_right _ _ _ (listSub_append_left _ _ _ hsub)
        | cons t ts =>
          show listSub needle.data (pyQuote s ++ ", " ++ pyStrInner (t :: ts)).data = true
          rw [String.data_append, String.data_append, pyQuote,
            String.data_append, String.data_append]
          exact listSub_append_right _ _ _ (listSub_append_right _ _ _
            (listSub_append_right _ _ _ (listSub_append_left _ _ _ hsub)))
      · cases rest with
        | nil => simp at h
        | cons t ts =>
          have inner := ih h
          show listSub needle.data (pyQuote s₀ ++ ", " ++ pyStrInner (t :: ts)).data = true
          rw [String.data_append]
          exact listSub_append_left _ _ _ inner
  rw [pyIn, pyStrList, String.data_append, String.data_append]
  exact listSub_append_right _ _ _ (listSub_append_left _ _ _ key)

/-- When no rule list is empty the default branch is skipped. -/
theorem generate_recommendations_eq (performance : Performance) (ratios : RatioSet)
    (risks : List String) (document_type : String) :
    generate_recommendations performance ratios risks document_type =
      if recommendation_rules performance ratios risks document_type = []
      then ["Maintain current performance and explore growth opportunities"]
      else recommendation_rules performance ratios risks document_type := rfl

/-- C7: the urgent-credit recommendation fires whenever some
risk-indicator string contains the substring "HIGH LIQUIDITY RISK" (the
source matches on Python's rendered `str` of the flag list, which any
flag containing the substring reaches); and when no rule fires the
output is exactly the single default maintain-current-performance
recommendation. -/
theorem recommendations_liquidity_and_default :
    (∀ (performance : Performance) (ratios : RatioSet) (risks : List String)
        (document_type s : String), s ∈ risks →
        pyIn "HIGH LIQUIDITY RISK" s = true →
        "URGENT: Arrange additional credit facilities or sell non-core assets"
          ∈ generate_recommendations performance ratios risks document_type) ∧
    (∀ (performance : Performance) (ratios : RatioSet) (risks : List String)
        (document_type : String),
        ¬ performance.overall_score < 60 →
        ¬ performance.profitability_score < 70 →
        ¬ performance.liquidity_score < 70 →
        (∀ de, ratios.debt_to_equity = some de → ¬ de > 1) →
        ¬ performance.efficiency_score < 70 →
        pyIn "HIGH LIQUIDITY RISK" (pyStrList risks) = false →
        pyIn "HIGH LEVERAGE RISK" (pyStrList risks) = false →
        document_type ≠ "quarterly_results" →
        generate_recommendations performance ratios risks document_type
          = ["Maintain current performance and explore growth opportunities"]) := by
  constructor
  · intro p r risks doc s hs hsub
    have hstr := pyIn_pyStrList_of_mem "HIGH LIQUIDITY RISK" s risks hs hsub
    have hmem : "URGENT: Arrange additional credit facilities or sell non-core assets"
        ∈ recommendation_rules p r risks doc := by
      simp [recommendation_rules, List.mem_append, hstr]
    rw [generate_recommendations_eq, if_neg (List.ne_nil_of_mem hmem)]
    exact hmem
  · intro p r risks doc h1 h2 h3 h4 h5 h6 h7 h8
    have hrules : recommendation_rules p r risks doc = [] := by
      rw [recommendation_rules]
      rw [if_neg h1, if_neg h2, if_neg h3, if_neg h5, if_neg (by simp [h6]),
        if_neg (by simp [h7]), if_neg (by simpa using h8)]
      rcases hde : r.debt_to_equity with _ | de
      · simp
      · simp [if_neg (h4 de hde)]
    rw [generate_recommendations_eq, if_pos hrules]

/-- The recommendation rules fired by an analysis with no figures: the
four low-score rules, plus the quarterly rule when the document type
warrants it. -/
theorem rules_on_empty (doc : String) :
    recommendation_rules (assess_performance RatioSet.empty) RatioSet.empty [] doc =
      ["PRIORITY: Comprehensive financial restructuring required",
       "Focus on cost optimization and revenue enhancement strategies",
       "Improve cash flow management and reduce short-term debt",
       "Enhance operational efficiency and asset utilization"] ++
      (if doc == "quarterly_results"
       then ["Monitor quarterly trends and seasonal variations"] else []) := by
  have e1 : (assess_performance RatioSet.empty).overall_score = 0 := rfl
  have e2 : (assess_performance RatioSet.empty).profitability_score = 0 := rfl
  have e3 : (assess_performance RatioSet.empty).liquidity_score = 0 := rfl
  have e4 : (assess_performance RatioSet.empty).efficiency_score = 0 := rfl
  have p1 : pyIn "HIGH LIQUIDITY RISK" (pyStrList []) = false := by decide
  have p2 : pyIn "HIGH LEVERAGE RISK" (pyStrList []) = false := by decide
  rw [recommendation_rules, e1, e2, e3, e4]
  rw [if_pos (by norm_num : (0 : Rat) < 60), if_pos (by norm_num : (0 : Rat) < 70),
    if_pos (by norm_num : (0 : Rat) < 70), if_pos (by norm_num : (0 : Rat) < 70),
    if_neg (by simp [p1]), if_neg (by simp [p2])]
  simp [RatioSet.empty]

/-- Unfolding lemma: the recommendations field of the assembled analysis
dict. -/
theorem analyze_recommendations (d : ExtractedData) :
    (analyze_financial_data d).recommendations =
      generate_recommendations (assess_performance (calculate_ratios d.financial_figures))
        (calculate_ratios d.financial_figures)
        (identify_risks d.financial_figures (calculate_ratios d.financial_figures))
        d.document_type := rfl

/-- C9: when the extracted figure dict is empty (so no ratios and no
computable category score), the recommendation list contains the four
fixed low-score recommendations — the absent category scores are read as
0 — and never the single default maintain-current-performance
recommendation. -/
theorem empty_figures_recommendations (data : ExtractedData)
    (h : data.financial_figures = FinancialFigures.empty) :
    "PRIORITY: Comprehensive financial restructuring required"
      ∈ (analyze_financial_data data).recommendations ∧
    "Focus on cost optimization and revenue enhancement strategies"
      ∈ (analyze_financial_data data).recommendations ∧
    "Improve cash flow management and reduce short-term debt"
      ∈ (analyze_financial_data data).recommendations ∧
    "Enhance operational efficiency and asset utilization"
      ∈ (analyze_financial_data data).recommendations ∧
    "Maintain current performance and explore growth opportunities"
      ∉ (analyze_financial_data data).recommendations := by
  have hra : calculate_ratios data.financial_figures = RatioSet.empty := by rw [h]; rfl
  have hri : identify_risks data.financial_figures RatioSet.empty = [] := by rw [h]; rfl
  have hrec : (analyze_financial_data data).recommendations =
      generate_recommendations (assess_performance RatioSet.empty) RatioSet.empty []
        data.document_type := by
    rw [analyze_recommendations, hra, hri]
  rw [hrec, generate_recommendations_eq, rules_on_empty,
    if_neg (by simp : ¬ ((["PRIORITY: Comprehensive financial restructuring required",
      "Focus on cost optimization and revenue enhancement strategies",
      "Improve cash flow management and reduce short-term debt",
      "Enhance operational efficiency and asset utilization"] ++
      (if data.document_type == "quarterly_results"
       then ["Monitor quarterly trends and seasonal variations"] else [])) = []))]
  by_cases hdoc : data.document_type == "quarterly_results" <;> simp [hdoc]

/-- Witness for C9 at a concrete extraction with an empty figure dict. -/
theorem empty_figures_recommendations_witness :
    "PRIORITY: Comprehensive financial restructuring required"
      ∈ (analyze_financial_data
          ⟨"financial_document", none, none, FinancialFigures.empty⟩).recommendations ∧
    "Focus on cost optimization and revenue enhancement strategies"
      ∈ (analyze_financial_data
          ⟨"financial_document", none, none, FinancialFigures.empty⟩).recommendations ∧
    "Improve cash flow management and reduce short-term debt"
      ∈ (analyze_financial_data
          ⟨"financial_document", none, none, FinancialFigures.empty⟩).recommendations ∧
    "Enhance operational efficiency and asset utilization"
      ∈ (analyze_financial_data
          ⟨"financial_document", none, none, FinancialFigures.empty⟩).recommendations ∧
    "Maintain current performance and explore growth opportunities"
      ∉ (analyze_financial_data
          ⟨"financial_document", none, none, FinancialFigures.empty⟩).recommendations :=
  empty_figures_recommendations ⟨"financial_document", none, none, FinancialFigures.empty⟩ rfl
